import Mathlib

/-!
Shallow embedding of `src/app.py` (Emotion-Based-Music-Visualizer).

External collaborators (DeepFace, yt-dlp, pygame, cv2, Streamlit widgets)
are modelled as stub fields of an `Env` record; every call the script makes
to the UI or to an external service is recorded as an `Event` in a trace, so
that "is invoked exactly once / never" properties become statements about
event counts in the trace produced by the pure Lean functions.
-/

namespace EmotionApp

/-- An image frame (contents are irrelevant to the orchestration logic). -/
abbrev Frame := Nat

/-- One entry of the yt-dlp search result (`info["entries"][i]`). -/
structure Entry where
  webpage_url : String
deriving Repr, DecidableEq

/-- The yt-dlp `extract_info` result dict; `entries = none` models the case
where the key `"entries"` is absent from the returned dict. -/
structure SearchInfo where
  entries : Option (List Entry)
deriving Repr, DecidableEq

/-- Observable effects of the script: external calls and UI messages. -/
inductive Event where
  | search (query : String)
  | download (url : String)
  | mixerLoad (file : String)
  | mixerPlay (file : String)
  | captureFrame
  | uploadWidget
  | errorMsg (s : String)
  | warnMsg (s : String)
  | infoMsg (s : String)
  | successMsg (s : String)
  | writeMsg (s : String)
  | image (caption : String)
  | video (url : String)
deriving Repr, DecidableEq

/-- Stubbed external collaborators and UI inputs of one run of the script.
`classify` is `DeepFace.analyze` (the returned dominant emotion, or a raised
exception), `search` is `ydl.extract_info`, `download` is `ydl.download`,
`loadPlay` is `pygame.mixer.music.load` + `play`, `cameraOpen` is
`cv2.VideoCapture(0)` (exception, or the value of `cap.isOpened()`),
`capRead` is `cap.read()` (`none` for `ret == False`). -/
structure Env where
  classify : Frame → Except String String
  search : String → Except String SearchInfo
  download : String → Except String Unit
  loadPlay : String → Except String Unit
  pygame_available : Bool
  cameraOpen : Except String Bool
  captureButton : Bool
  capRead : Option Frame
  uploadedFile : Option Frame
  analyzeButton : Bool

/-- The `emotion_map` dict of `app.py`, lines 22-30. -/
def emotion_map : List (String × String) :=
  [("angry", "calm"),
   ("disgust", "relaxing"),
   ("fear", "soothing"),
   ("happy", "happy"),
   ("neutral", "peaceful"),
   ("sad", "uplifting"),
   ("surprise", "exciting")]

/-- `emotion_map.get(emotion, 'neutral')` as used in `app.py` lines 44, 125
and 154: look the emotion up in the dict, defaulting to `"neutral"`. -/
def emotion_map_get (emotion : String) : String :=
  (emotion_map.lookup emotion).getD "neutral"

/-- `detect_emotion` (`app.py` lines 32-40): return the classifier's dominant
emotion, or catch any exception, show an error message and return
`"neutral"`. -/
def detect_emotion (env : Env) (frame : Frame) : String × List Event :=
  match env.classify frame with
  | .ok emotion => (emotion, [])
  | .error e => ("neutral", [Event.errorMsg ("⚠️ Error detecting emotion: " ++ e)])

/-- The `ydl_opts` dict built in `get_youtube_url` (`app.py` lines 45-49). -/
structure SearchYdlOpts where
  default_search : String
  quiet : Bool
  noplaylist : Bool
deriving Repr, DecidableEq

/-- The concrete options of `get_youtube_url`: `ytsearch1` constrains the
search to at most one candidate. -/
def search_ydl_opts : SearchYdlOpts :=
  { default_search := "ytsearch1", quiet := true, noplaylist := true }

/-- The search query string built in `get_youtube_url` (`app.py` line 44). -/
def search_query (emotion : String) : String :=
  emotion_map_get emotion ++ " mood music"

/-- `get_youtube_url` (`app.py` lines 42-59): issue one search; if the result
dict has a nonempty `"entries"` list return the first entry's
`webpage_url`, otherwise `None`; catch any exception, show an error message
and return `None`. -/
def get_youtube_url (env : Env) (emotion : String) : Option String × List Event :=
  let q := search_query emotion
  match env.search q with
  | .ok info =>
      match info.entries with
      | some (e :: _) => (some e.webpage_url, [Event.search q])
      | some [] => (none, [Event.search q])
      | none => (none, [Event.search q])
  | .error e => (none, [Event.search q, Event.errorMsg ("❌ Error searching YouTube: " ++ e)])

/-- `tempfile.gettempdir()` as a fixed abstract path. -/
def temp_dir : String := "/tmp"

/-- `os.path.join(temp_dir, "audio.mp3")` (`app.py` line 64). -/
def output_file : String := temp_dir ++ "/" ++ "audio.mp3"

/-- `download_audio` (`app.py` lines 61-77): a single download attempt into
the fixed output file; return its path on success, `None` on any
exception. -/
def download_audio (env : Env) (youtube_url : String) : Option String × List Event :=
  match env.download youtube_url with
  | .ok _ => (some output_file, [Event.download youtube_url])
  | .error e =>
      (none, [Event.download youtube_url,
              Event.errorMsg ("❌ Failed to download music: " ++ e)])

/-- `play_music` (`app.py` lines 79-96): if pygame is unavailable, show an
informational message and return `None`; otherwise download and, on
success, load and start playback, catching playback errors. -/
def play_music (env : Env) (youtube_url : String) : Option String × List Event :=
  if !env.pygame_available then
    (none, [Event.infoMsg "Music playback is not available in this environment."])
  else
    let (audio_file, ev1) := download_audio env youtube_url
    match audio_file with
    | some f =>
        match env.loadPlay f with
        | .ok _ => (some f, ev1 ++ [Event.mixerLoad f, Event.mixerPlay f])
        | .error e => (none, ev1 ++ [Event.mixerLoad f,
                                     Event.warnMsg ("Could not play audio: " ++ e)])
    | none => (none, ev1)

/-- The shared tail of both orchestration branches (`app.py` lines 122-128
and 151-157): search for a song, then either show the success message and
embed the video, or warn that no music was found. -/
def search_and_show (env : Env) (emotion : String) : List Event :=
  let (urlOpt, ev) := get_youtube_url env emotion
  Event.writeMsg "🔎 Searching for a song..." :: ev ++
    match urlOpt with
    | some url =>
        [Event.successMsg ("🎵 Now Playing: " ++ emotion_map_get emotion ++ " Mood Music"),
         Event.video url]
    | none => [Event.warnMsg "❌ No suitable music found."]

/-- The camera branch of the script (`app.py` lines 114-130): read a frame,
detect the emotion, display the image, then search and show. -/
def camera_pipeline (env : Env) : List Event :=
  Event.captureFrame ::
    match env.capRead with
    | some frame =>
        let (emotion, ev1) := detect_emotion env frame
        ev1 ++ Event.image ("Detected Emotion: " ++ emotion) :: search_and_show env emotion
    | none => [Event.errorMsg "❌ Failed to capture image."]

/-- The upload branch of the script (`app.py` lines 131-157): render the
uploader; if a file was chosen and the analyze button pressed, display the
image, detect the emotion, then search and show. -/
def upload_flow (env : Env) : List Event :=
  Event.writeMsg "📤 Upload an image instead:" :: Event.uploadWidget ::
    match env.uploadedFile with
    | some image_np =>
        if env.analyzeButton then
          Event.image "Uploaded Image" ::
            let (emotion, ev1) := detect_emotion env image_np
            ev1 ++ Event.writeMsg ("**Detected Emotion:** " ++ emotion) ::
              search_and_show env emotion
        else []
    | none => []

/-- `cap_available` (`app.py` lines 103-112): true iff `cv2.VideoCapture(0)`
did not raise and `cap.isOpened()` returned true; a warning is shown when it
is false. -/
def cap_available (env : Env) : Bool × List Event :=
  match env.cameraOpen with
  | .ok true => (true, [])
  | .ok false => (false, [Event.warnMsg "📷 Camera not available in this environment. Please try running locally."])
  | .error _ => (false, [Event.warnMsg "📷 Camera not available in this environment. Please try running locally."])

/-- The whole script body (`app.py` lines 13-157): pygame init warning,
title, camera probe, then the camera branch (gated on availability and the
button) or the upload branch (when the camera is unavailable). -/
def app (env : Env) : List Event :=
  let pygameEvs :=
    if env.pygame_available then []
    else [Event.warnMsg "🔊 Audio playback is not available in this environment."]
  let (avail, camEvs) := cap_available env
  pygameEvs ++
    Event.writeMsg "Capture your emotions and listen to music that matches your mood! 😊" ::
    camEvs ++
    (if avail && env.captureButton then camera_pipeline env
     else if !avail then upload_flow env
     else [])

/-- Is this event a `pygame.mixer.music.play` call? -/
def isPlayEvent : Event → Bool
  | Event.mixerPlay _ => true
  | _ => false

/-- Is this event a `ydl.download` call (a `download_audio` attempt)? -/
def isDownloadEvent : Event → Bool
  | Event.download _ => true
  | _ => false

/-- Is this event a `cap.read()` frame-capture attempt? -/
def isCaptureEvent : Event → Bool
  | Event.captureFrame => true
  | _ => false

/-- Is this event a yt-dlp search request? -/
def isSearchEvent : Event → Bool
  | Event.search _ => true
  | _ => false

/-- Is this event an embedded-video display (`st.video`)? -/
def isVideoEvent : Event → Bool
  | Event.video _ => true
  | _ => false

/-- Number of playback invocations in a trace. -/
def countPlay (evs : List Event) : Nat := (evs.filter isPlayEvent).length

/-- Number of download attempts in a trace. -/
def countDownload (evs : List Event) : Nat := (evs.filter isDownloadEvent).length

/-- Number of camera frame captures in a trace. -/
def countCapture (evs : List Event) : Nat := (evs.filter isCaptureEvent).length

/-- Number of search requests in a trace. -/
def countSearch (evs : List Event) : Nat := (evs.filter isSearchEvent).length

/-- Number of embedded-video displays in a trace. -/
def countVideo (evs : List Event) : Nat := (evs.filter isVideoEvent).length

/-- A stub environment where every external collaborator fails. -/
def envFail : Env :=
  { classify := fun _ => .error "boom",
    search := fun _ => .error "net down",
    download := fun _ => .error "dl failed",
    loadPlay := fun _ => .error "mixer error",
    pygame_available := false,
    cameraOpen := .error "no camera",
    captureButton := false,
    capRead := none,
    uploadedFile := none,
    analyzeButton := false }

/-- A stub environment realizing the end-to-end success scenario: camera
available, capture button pressed, a frame read, classifier returns
`"happy"`, the search returns one entry with URL `"U"`, download and
playback succeed. -/
def envHappy : Env :=
  { classify := fun _ => .ok "happy",
    search := fun _ => .ok ⟨some [⟨"U"⟩]⟩,
    download := fun _ => .ok (),
    loadPlay := fun _ => .ok (),
    pygame_available := true,
    cameraOpen := .ok true,
    captureButton := true,
    capRead := some 0,
    uploadedFile := none,
    analyzeButton := false }

/-! ### Helper lemmas about event counts in the traces -/

/-- Event counts distribute over trace concatenation. -/
lemma count_filter_append (p : Event → Bool) (a b : List Event) :
    ((a ++ b).filter p).length = (a.filter p).length + (b.filter p).length := by
  simp [List.filter_append]

/-- The trace of `search_and_show` contains no download attempt. -/
lemma countDownload_search_and_show (env : Env) (e : String) :
    countDownload (search_and_show env e) = 0 := by
  unfold search_and_show get_youtube_url
  cases h : env.search (search_query e) with
  | error err => simp [h, countDownload, isDownloadEvent]
  | ok info =>
      cases hent : info.entries with
      | none => simp [h, hent, countDownload, isDownloadEvent]
      | some es =>
          cases es with
          | nil => simp [h, hent, countDownload, isDownloadEvent]
          | cons en rest => simp [h, hent, countDownload, isDownloadEvent]

/-- The trace of `detect_emotion` contains no download attempt. -/
lemma countDownload_detect_emotion (env : Env) (f : Frame) :
    countDownload (detect_emotion env f).2 = 0 := by
  unfold detect_emotion
  cases h : env.classify f with
  | error e => simp [h, countDownload, isDownloadEvent]
  | ok e => simp [h, countDownload, isDownloadEvent]

/-- The camera branch makes no download attempt. -/
lemma countDownload_camera_pipeline (env : Env) :
    countDownload (camera_pipeline env) = 0 := by
  unfold camera_pipeline
  cases h : env.capRead with
  | none => simp [h, countDownload, isDownloadEvent]
  | some f =>
      have h1 := countDownload_detect_emotion env f
      have h2 := countDownload_search_and_show env (detect_emotion env f).1
      simp only [countDownload] at h1 h2 ⊢
      simp [h, List.filter_append, h1, h2, isDownloadEvent]

/-- The upload branch makes no download attempt. -/
lemma countDownload_upload_flow (env : Env) :
    countDownload (upload_flow env) = 0 := by
  unfold upload_flow
  cases h : env.uploadedFile with
  | none => simp [h, countDownload, isDownloadEvent]
  | some f =>
      cases hb : env.analyzeButton with
      | false => simp [h, hb, countDownload, isDownloadEvent]
      | true =>
          have h1 := countDownload_detect_emotion env f
          have h2 := countDownload_search_and_show env (detect_emotion env f).1
          simp only [countDownload] at h1 h2 ⊢
          simp [h, hb, List.filter_append, h1, h2, isDownloadEvent]

/-- The whole script never makes a download attempt (it never calls
`play_music`, the only caller of `download_audio`). -/
lemma countDownload_app (env : Env) : countDownload (app env) = 0 := by
  have hc := countDownload_camera_pipeline env
  have hu := countDownload_upload_flow env
  simp only [countDownload] at hc hu ⊢
  unfold app cap_available
  cases hcam : env.cameraOpen with
  | error e =>
      cases hp : env.pygame_available <;>
        simp [hcam, hp, List.filter_append, isDownloadEvent, hu]
  | ok b =>
      cases b <;> cases hp : env.pygame_available <;> cases hcap : env.captureButton <;>
        simp [hcam, hp, hcap, List.filter_append, isDownloadEvent, hc, hu]

/-- The trace of `search_and_show` contains no playback invocation. -/
lemma countPlay_search_and_show (env : Env) (e : String) :
    countPlay (search_and_show env e) = 0 := by
  unfold search_and_show get_youtube_url
  cases h : env.search (search_query e) with
  | error err => simp [h, countPlay, isPlayEvent]
  | ok info =>
      cases hent : info.entries with
      | none => simp [h, hent, countPlay, isPlayEvent]
      | some es =>
          cases es with
          | nil => simp [h, hent, countPlay, isPlayEvent]
          | cons en rest => simp [h, hent, countPlay, isPlayEvent]

/-- The trace of `detect_emotion` contains no playback invocation. -/
lemma countPlay_detect_emotion (env : Env) (f : Frame) :
    countPlay (detect_emotion env f).2 = 0 := by
  unfold detect_emotion
  cases h : env.classify f with
  | error e => simp [h, countPlay, isPlayEvent]
  | ok e => simp [h, countPlay, isPlayEvent]

/-- The camera branch never invokes playback. -/
lemma countPlay_camera_pipeline (env : Env) :
    countPlay (camera_pipeline env) = 0 := by
  unfold camera_pipeline
  cases h : env.capRead with
  | none => simp [h, countPlay, isPlayEvent]
  | some f =>
      have h1 := countPlay_detect_emotion env f
      have h2 := countPlay_search_and_show env (detect_emotion env f).1
      simp only [countPlay] at h1 h2 ⊢
      simp [h, List.filter_append, h1, h2, isPlayEvent]

/-- The upload branch never invokes playback. -/
lemma countPlay_upload_flow (env : Env) :
    countPlay (upload_flow env) = 0 := by
  unfold upload_flow
  cases h : env.uploadedFile with
  | none => simp [h, countPlay, isPlayEvent]
  | some f =>
      cases hb : env.analyzeButton with
      | false => simp [h, hb, countPlay, isPlayEvent]
      | true =>
          have h1 := countPlay_detect_emotion env f
          have h2 := countPlay_search_and_show env (detect_emotion env f).1
          simp only [countPlay] at h1 h2 ⊢
          simp [h, hb, List.filter_append, h1, h2, isPlayEvent]

/-- The whole script never invokes `pygame.mixer.music.play`: `play_music`
is defined in `app.py` but has no caller. -/
lemma countPlay_app (env : Env) : countPlay (app env) = 0 := by
  have hc := countPlay_camera_pipeline env
  have hu := countPlay_upload_flow env
  simp only [countPlay] at hc hu ⊢
  unfold app cap_available
  cases hcam : env.cameraOpen with
  | error e =>
      cases hp : env.pygame_available <;>
        simp [hcam, hp, List.filter_append, isPlayEvent, hu]
  | ok b =>
      cases b <;> cases hp : env.pygame_available <;> cases hcap : env.captureButton <;>
        simp [hcam, hp, hcap, List.filter_append, isPlayEvent, hc, hu]

/-- The trace of `search_and_show` contains no frame capture. -/
lemma countCapture_search_and_show (env : Env) (e : String) :
    countCapture (search_and_show env e) = 0 := by
  unfold search_and_show get_youtube_url
  cases h : env.search (search_query e) with
  | error err => simp [h, countCapture, isCaptureEvent]
  | ok info =>
      cases hent : info.entries with
      | none => simp [h, hent, countCapture, isCaptureEvent]
      | some es =>
          cases es with
          | nil => simp [h, hent, countCapture, isCaptureEvent]
          | cons en rest => simp [h, hent, countCapture, isCaptureEvent]

/-- The trace of `detect_emotion` contains no frame capture. -/
lemma countCapture_detect_emotion (env : Env) (f : Frame) :
    countCapture (detect_emotion env f).2 = 0 := by
  unfold detect_emotion
  cases h : env.classify f with
  | error e => simp [h, countCapture, isCaptureEvent]
  | ok e => simp [h, countCapture, isCaptureEvent]

/-- The upload branch never attempts a camera frame capture. -/
lemma countCapture_upload_flow (env : Env) :
    countCapture (upload_flow env) = 0 := by
  unfold upload_flow
  cases h : env.uploadedFile with
  | none => simp [h, countCapture, isCaptureEvent]
  | some f =>
      cases hb : env.analyzeButton with
      | false => simp [h, hb, countCapture, isCaptureEvent]
      | true =>
          have h1 := countCapture_detect_emotion env f
          have h2 := countCapture_search_and_show env (detect_emotion env f).1
          simp only [countCapture] at h1 h2 ⊢
          simp [h, hb, List.filter_append, h1, h2, isCaptureEvent]

/-- The upload branch always renders the upload widget. -/
lemma uploadWidget_mem_upload_flow (env : Env) :
    Event.uploadWidget ∈ upload_flow env := by
  unfold upload_flow
  simp

/-- When the camera probe fails, no frame capture is attempted and the
upload widget is rendered. -/
lemma app_camera_unavailable (env : Env) (h : (cap_available env).1 = false) :
    countCapture (app env) = 0 ∧ Event.uploadWidget ∈ app env := by
  have hu := countCapture_upload_flow env
  have hm := uploadWidget_mem_upload_flow env
  simp only [countCapture] at hu ⊢
  unfold app
  cases hcam : env.cameraOpen with
  | error e =>
      cases hp : env.pygame_available <;>
        simp [cap_available, hcam, hp, List.filter_append, isCaptureEvent, hu, hm]
  | ok b =>
      cases b with
      | false =>
          cases hp : env.pygame_available <;>
            simp [cap_available, hcam, hp, List.filter_append, isCaptureEvent, hu, hm]
      | true =>
          rw [cap_available] at h
          simp [hcam] at h

/-! ### Claim theorems -/

/-- C1 (counterexample): the input `"unknown"` is not one of the seven known
emotion labels, yet the mood lookup used to build the search query returns
`"neutral"`, not `"peaceful"` as claimed: `emotion_map.get(emotion,
'neutral')` defaults to the string `"neutral"`. -/
theorem C1_counterexample :
    "unknown" ∉ ["angry", "disgust", "fear", "happy", "neutral", "sad", "surprise"] ∧
    emotion_map_get "unknown" ≠ "peaceful" ∧
    emotion_map_get "unknown" = "neutral" := by
  refine ⟨by decide, ?_, by decide⟩
  decide

/-- C1 (amended): for every input string that is not one of the seven known
emotion labels, the mood lookup used to build the search query returns
`"neutral"` (the default of `emotion_map.get`). -/
theorem C1_unknown_label_default (e : String)
    (h : e ∉ ["angry", "disgust", "fear", "happy", "neutral", "sad", "surprise"]) :
    emotion_map_get e = "neutral" := by
  simp only [List.mem_cons, List.not_mem_nil, or_false, not_or] at h
  obtain ⟨h1, h2, h3, h4, h5, h6, h7⟩ := h
  simp [emotion_map_get, emotion_map, List.lookup,
    beq_eq_false_iff_ne.mpr h1, beq_eq_false_iff_ne.mpr h2, beq_eq_false_iff_ne.mpr h3,
    beq_eq_false_iff_ne.mpr h4, beq_eq_false_iff_ne.mpr h5, beq_eq_false_iff_ne.mpr h6,
    beq_eq_false_iff_ne.mpr h7]

/-- C1 (witness): the amended fallback theorem applied at the concrete
unrecognized label `"unknown"`. -/
theorem C1_witness :
    emotion_map_get "unknown" = "neutral" :=
  C1_unknown_label_default "unknown" (by decide)

/-- C3: each of the seven emotion labels maps to exactly the documented mood
label, and the lookup is a pure total function, so two lookups of the same
label are always equal. -/
theorem C3_mood_map_documented :
    emotion_map_get "angry" = "calm" ∧
    emotion_map_get "disgust" = "relaxing" ∧
    emotion_map_get "fear" = "soothing" ∧
    emotion_map_get "happy" = "happy" ∧
    emotion_map_get "neutral" = "peaceful" ∧
    emotion_map_get "sad" = "uplifting" ∧
    emotion_map_get "surprise" = "exciting" ∧
    ∀ e : String, emotion_map_get e = emotion_map_get e := by
  refine ⟨by decide, by decide, by decide, by decide, by decide, by decide, by decide,
    fun e => rfl⟩

/-- C4: if the emotion classifier raises (returns an exception), then
`detect_emotion` returns the label `"neutral"` together with only an error
message in its trace; as a total Lean function it propagates no
exception. -/
theorem C4_detect_emotion_fail_soft (env : Env) (frame : Frame) (msg : String)
    (h : env.classify frame = .error msg) :
    detect_emotion env frame =
      ("neutral", [Event.errorMsg ("⚠️ Error detecting emotion: " ++ msg)]) := by
  simp [detect_emotion, h]

/-- C4 (witness): the fail-soft theorem applied to a concrete environment
whose classifier raises `"boom"` on frame `0`. -/
theorem C4_witness :
    detect_emotion envFail 0 =
      ("neutral", [Event.errorMsg ("⚠️ Error detecting emotion: " ++ "boom")]) :=
  C4_detect_emotion_fail_soft envFail 0 "boom" rfl

/-- C6: when pygame initialization failed (`pygame_available = false`),
`play_music` returns `None` for every URL, its entire trace is the single
informational message, so no download, load or play is ever attempted. -/
theorem C6_play_noop_when_uninitialized (env : Env) (url : String)
    (h : env.pygame_available = false) :
    play_music env url =
      (none, [Event.infoMsg "Music playback is not available in this environment."]) := by
  simp [play_music, h]

/-- C6 (witness): the no-op theorem at a concrete environment without
pygame. -/
theorem C6_witness :
    play_music envFail "U" =
      (none, [Event.infoMsg "Music playback is not available in this environment."]) :=
  C6_play_noop_when_uninitialized envFail "U" rfl

/-- C10: when pygame is unavailable, `play_music` performs no download
attempt at all (the guard returns before `download_audio` is reached) and
returns `None`. -/
theorem C10_no_download_when_unavailable (env : Env) (url : String)
    (h : env.pygame_available = false) :
    countDownload (play_music env url).2 = 0 ∧ (play_music env url).1 = none := by
  simp [play_music, h, countDownload, isDownloadEvent]

/-- C10 (witness): the no-download theorem at a concrete environment without
pygame. -/
theorem C10_witness :
    countDownload (play_music envFail "U").2 = 0 ∧ (play_music envFail "U").1 = none :=
  C10_no_download_when_unavailable envFail "U" rfl

/-- A stub environment like `envFail` whose search succeeds with an empty
entry list (zero results). -/
def envNoResults : Env :=
  { envFail with search := fun _ => .ok ⟨some []⟩ }

/-- C2 (counterexample): in the concrete end-to-end success environment
(camera available, button pressed, frame read, classifier returns
`"happy"`, locator returns URL `"U"`, fetcher would succeed, pygame
available), `pygame.mixer.music.play` is not invoked exactly once — the
script never calls `play_music` at all. -/
theorem C2_counterexample :
    envHappy.cameraOpen = .ok true ∧
    envHappy.captureButton = true ∧
    envHappy.capRead = some 0 ∧
    envHappy.classify 0 = .ok "happy" ∧
    (get_youtube_url envHappy "happy").1 = some "U" ∧
    (download_audio envHappy "U").1 = some output_file ∧
    envHappy.pygame_available = true ∧
    countPlay (app envHappy) ≠ 1 := by
  refine ⟨rfl, rfl, rfl, rfl, rfl, rfl, rfl, ?_⟩
  have h : countPlay (app envHappy) = 0 := countPlay_app envHappy
  omega

/-- C2 (amended): in the end-to-end success scenario the Orchestrator never
invokes `Player.play` (`play_music` has no caller); instead it embeds the
located video URL in the UI exactly once. -/
theorem C2_success_embeds_video (env : Env) (frame : Frame) (u : String)
    (rest : List Entry) (info : SearchInfo)
    (hcam : env.cameraOpen = .ok true) (hbtn : env.captureButton = true)
    (hpg : env.pygame_available = true)
    (hread : env.capRead = some frame)
    (hcls : env.classify frame = .ok "happy")
    (hsearch : env.search (search_query "happy") = .ok info)
    (hent : info.entries = some (Entry.mk u :: rest)) :
    countPlay (app env) = 0 ∧ countVideo (app env) = 1 ∧ Event.video u ∈ app env := by
  refine ⟨countPlay_app env, ?_, ?_⟩ <;>
    simp [app, cap_available, camera_pipeline, detect_emotion, search_and_show,
      get_youtube_url, hcam, hbtn, hpg, hread, hcls, hsearch, hent,
      countVideo, isVideoEvent, List.filter_append]

/-- C2 (witness): the amended theorem applied at the concrete success
environment `envHappy`. -/
theorem C2_witness :
    countPlay (app envHappy) = 0 ∧ countVideo (app envHappy) = 1 ∧
      Event.video "U" ∈ app envHappy :=
  C2_success_embeds_video envHappy 0 "U" [] ⟨some [⟨"U"⟩]⟩ rfl rfl rfl rfl rfl rfl rfl

/-- C5: a search exception inside `get_youtube_url` yields `None`, the same
value as zero results; whenever the locator yields `None`, the pipeline
shows the "no suitable music found" warning; and `download_audio` is never
called by the script in any environment. -/
theorem C5_search_error_and_halt :
    (∀ (env : Env) (emotion err : String),
        env.search (search_query emotion) = .error err →
        (get_youtube_url env emotion).1 = none) ∧
    (∀ (env : Env) (emotion : String) (info : SearchInfo),
        env.search (search_query emotion) = .ok info → info.entries = some [] →
        (get_youtube_url env emotion).1 = none) ∧
    (∀ (env : Env) (emotion : String),
        (get_youtube_url env emotion).1 = none →
        Event.warnMsg "❌ No suitable music found." ∈ search_and_show env emotion) ∧
    (∀ env : Env, countDownload (app env) = 0) := by
  refine ⟨?_, ?_, ?_, countDownload_app⟩
  · intro env emotion err h
    simp [get_youtube_url, h]
  · intro env emotion info h hent
    simp [get_youtube_url, h, hent]
  · intro env emotion h
    unfold search_and_show
    cases hgu : get_youtube_url env emotion with
    | mk urlOpt ev =>
        have h' : urlOpt = none := by rw [hgu] at h; exact h
        subst h'
        simp

/-- C5 (witness): the theorem applied at a concrete failing-search
environment. -/
theorem C5_witness :
    (get_youtube_url envFail "happy").1 = none ∧
    Event.warnMsg "❌ No suitable music found." ∈ search_and_show envFail "happy" ∧
    countDownload (app envFail) = 0 :=
  ⟨C5_search_error_and_halt.1 envFail "happy" "net down" rfl,
   C5_search_error_and_halt.2.2.1 envFail "happy"
     (C5_search_error_and_halt.1 envFail "happy" "net down" rfl),
   C5_search_error_and_halt.2.2.2 envFail⟩

/-- C7: for each emotion label the issued query is the mood label followed
by " mood music"; the yt-dlp options request at most one candidate
(`ytsearch1`); exactly one search request is issued per call; and the
result is the first entry's canonical URL, or `None` on zero results. -/
theorem C7_locator_contract :
    (search_query "angry" = "calm mood music" ∧
     search_query "disgust" = "relaxing mood music" ∧
     search_query "fear" = "soothing mood music" ∧
     search_query "happy" = "happy mood music" ∧
     search_query "neutral" = "peaceful mood music" ∧
     search_query "sad" = "uplifting mood music" ∧
     search_query "surprise" = "exciting mood music") ∧
    search_ydl_opts.default_search = "ytsearch1" ∧
    (∀ (env : Env) (e : String), countSearch (get_youtube_url env e).2 = 1) ∧
    (∀ (env : Env) (e u : String) (rest : List Entry) (info : SearchInfo),
        env.search (search_query e) = .ok info →
        info.entries = some (Entry.mk u :: rest) →
        (get_youtube_url env e).1 = some u) ∧
    (∀ (env : Env) (e : String) (info : SearchInfo),
        env.search (search_query e) = .ok info → info.entries = some [] →
        (get_youtube_url env e).1 = none) := by
  refine ⟨⟨by decide, by decide, by decide, by decide, by decide, by decide, by decide⟩,
    rfl, ?_, ?_, ?_⟩
  · intro env e
    unfold get_youtube_url
    cases h : env.search (search_query e) with
    | error err => simp [h, countSearch, isSearchEvent]
    | ok info =>
        cases hent : info.entries with
        | none => simp [h, hent, countSearch, isSearchEvent]
        | some es => cases es <;> simp [h, hent, countSearch, isSearchEvent]
  · intro env e u rest info h hent
    simp [get_youtube_url, h, hent]
  · intro env e info h hent
    simp [get_youtube_url, h, hent]

/-- C7 (witness): the locator contract applied at concrete one-result and
zero-result environments. -/
theorem C7_witness :
    countSearch (get_youtube_url envHappy "happy").2 = 1 ∧
    (get_youtube_url envHappy "happy").1 = some "U" ∧
    (get_youtube_url envNoResults "happy").1 = none :=
  ⟨C7_locator_contract.2.2.1 envHappy "happy",
   C7_locator_contract.2.2.2.1 envHappy "happy" "U" [] ⟨some [⟨"U"⟩]⟩ rfl rfl,
   C7_locator_contract.2.2.2.2 envNoResults "happy" ⟨some []⟩ rfl rfl⟩

/-- C8: whenever the camera probe reports unavailable, the script routes to
the upload path (the upload widget is rendered) and never attempts a frame
capture; conversely, a frame capture in the trace implies the camera was
available. -/
theorem C8_unavailable_routes_to_upload :
    (∀ env : Env, (cap_available env).1 = false →
        countCapture (app env) = 0 ∧ Event.uploadWidget ∈ app env) ∧
    (∀ env : Env, 0 < countCapture (app env) → (cap_available env).1 = true) := by
  refine ⟨app_camera_unavailable, ?_⟩
  intro env h
  cases hb : (cap_available env).1 with
  | false =>
      have h0 := (app_camera_unavailable env hb).1
      omega
  | true => rfl

/-- C8 (witness): the routing theorem at a concrete camera-less environment
and a concrete camera-available environment. -/
theorem C8_witness :
    (countCapture (app envFail) = 0 ∧ Event.uploadWidget ∈ app envFail) ∧
    (cap_available envHappy).1 = true := by
  refine ⟨C8_unavailable_routes_to_upload.1 envFail rfl,
          C8_unavailable_routes_to_upload.2 envHappy ?_⟩
  decide

/-- C9: `download_audio` targets the single fixed path `tempdir/audio.mp3`,
returns that path when the download succeeds, returns `None` on any
download exception, and makes exactly one download attempt per call (no
retry). -/
theorem C9_download_audio_contract :
    output_file = "/tmp/audio.mp3" ∧
    (∀ (env : Env) (url : String) (r : Unit), env.download url = .ok r →
        download_audio env url = (some output_file, [Event.download url])) ∧
    (∀ (env : Env) (url e : String), env.download url = .error e →
        (download_audio env url).1 = none) ∧
    (∀ (env : Env) (url : String), countDownload (download_audio env url).2 = 1) := by
  refine ⟨by decide, ?_, ?_, ?_⟩
  · intro env url r h
    simp [download_audio, h]
  · intro env url e h
    simp [download_audio, h]
  · intro env url
    unfold download_audio
    cases h : env.download url <;> simp [countDownload, isDownloadEvent]

/-- C9 (witness): the fetcher contract at concrete succeeding and failing
environments. -/
theorem C9_witness :
    download_audio envHappy "U" = (some output_file, [Event.download "U"]) ∧
    (download_audio envFail "U").1 = none ∧
    countDownload (download_audio envFail "U").2 = 1 :=
  ⟨C9_download_audio_contract.2.1 envHappy "U" () rfl,
   C9_download_audio_contract.2.2.1 envFail "U" "dl failed" rfl,
   C9_download_audio_contract.2.2.2 envFail "U"⟩

end EmotionApp
